import Mathlib

/-
Verification of the fundamental-price-prediction core (src/FPP.py).

Numbers are modelled by `FVal`: either a finite rational (`FVal.fin q`) or the
IEEE-754 quiet NaN (`FVal.nan`).  Arithmetic propagates NaN exactly as Python /
numpy float arithmetic does; ordered comparisons involving NaN are false and
`!=` involving NaN is true.  Infinities never arise on the modelled code paths
(every division in the source is guarded against an exactly-zero denominator),
so they are not represented; the unreachable division-by-finite-zero case of
`FVal.fdiv` is collapsed to NaN.

The fifth root taken by the CAGR computation is irrational, so the CAGR line is
embedded relationally over ℝ (`CagrRel`); everything else is executable.
-/

namespace FPP

/-- A Python/numpy float value: a finite rational or NaN. -/
inductive FVal where
  | fin (q : ℚ)
  | nan
deriving DecidableEq

namespace FVal

/-- Float addition: NaN-propagating. -/
def fadd : FVal → FVal → FVal
  | fin a, fin b => fin (a + b)
  | _, _ => nan

/-- Float subtraction: NaN-propagating. -/
def fsub : FVal → FVal → FVal
  | fin a, fin b => fin (a - b)
  | _, _ => nan

/-- Float multiplication: NaN-propagating. -/
def fmul : FVal → FVal → FVal
  | fin a, fin b => fin (a * b)
  | _, _ => nan

/-- Float division: NaN-propagating.  A finite denominator equal to 0 is
collapsed to NaN; every division in the source is guarded so that this case
is never reached with a nonzero numerator. -/
def fdiv : FVal → FVal → FVal
  | fin a, fin b => if b = 0 then nan else fin (a / b)
  | _, _ => nan

/-- Float power with a natural exponent; Python evaluates `nan ** 0` to `1.0`. -/
def fpow : FVal → ℕ → FVal
  | fin a, n => fin (a ^ n)
  | nan, 0 => fin 1
  | nan, _ + 1 => nan

/-- Float `<`: any comparison with NaN is false. -/
def flt : FVal → FVal → Bool
  | fin a, fin b => decide (a < b)
  | _, _ => false

/-- Float `==`: NaN compares unequal to everything, including itself. -/
def feq : FVal → FVal → Bool
  | fin a, fin b => decide (a = b)
  | _, _ => false

/-- Float `!=`: in particular `nan != x` is true. -/
def fne (a b : FVal) : Bool := !(feq a b)

/-- Python `max(a, b)`: returns `b` exactly when `a < b` under float
comparison, so `max(0, nan) = 0`. -/
def pymax (a b : FVal) : FVal := if flt a b then b else a

/-- A value is finite when it is not NaN. -/
def isFinite : FVal → Bool
  | fin _ => true
  | nan => false

end FVal

/-- A raw value held in the provider's profile record: a float (possibly NaN),
Python `None`, or a value whose coercion by `float(...)` raises. -/
inductive PyVal where
  | num (v : FVal)
  | null
  | junk
deriving DecidableEq

/-- A flat key → value record, as the provider's `info` dict. -/
def Rec := List (String × PyVal)

/-- Dictionary lookup: the value at the first matching key, if any. -/
def lookupRec (obj : List (String × PyVal)) (key : String) : Option PyVal :=
  (obj.find? (fun p => p.1 == key)).map (fun p => p.2)

/-- safe_get (src/FPP.py:12-24): coerce `obj[key]` to a float, returning
`default` when the key is absent, the value is None or NaN, or the coercion
raises.  Never raises. -/
def safe_get (obj : List (String × PyVal)) (key : String) (default : FVal) : FVal :=
  match lookupRec obj key with
  | none => default
  | some PyVal.null => default
  | some PyVal.junk => default
  | some (PyVal.num FVal.nan) => default
  | some (PyVal.num (FVal.fin q)) => FVal.fin q

/-- A labeled statement table: rows of (concept label, period values ordered
most-recent-first), as a pandas DataFrame with labels as the index. -/
def Table := List (String × List FVal)

/-- Row lookup, as `df.loc[label]` with `label in df.index` (labels unique). -/
def lookupRow (t : List (String × List FVal)) (k : String) : Option (List FVal) :=
  (t.find? (fun p => p.1 == k)).map (fun p => p.2)

/-- DataFrame emptiness: a table is empty when it has no rows or no columns. -/
def tableEmpty (t : List (String × List FVal)) : Bool :=
  t.isEmpty || t.all (fun p => p.2.isEmpty)

/-- Number of period columns, `len(df.columns)` (in pandas all rows have the
same length; applied to ragged lists this takes the widest row). -/
def ncols (t : List (String × List FVal)) : ℕ :=
  t.foldr (fun r acc => max r.2.length acc) 0

/-- Column slice `df.iloc[:, i:i+1]`: every row keeps (at most) its i-th cell. -/
def sliceCol (t : List (String × List FVal)) (i : ℕ) : List (String × List FVal) :=
  t.map (fun p => (p.1, (p.2.drop i).take 1))

/-- The ordered alias set for shareholder equity (src/FPP.py:27-35). -/
def equityCandidates : List String :=
  ["Total Stockholder Equity",
   "Total Equity",
   "Stockholders Equity",
   "Total shareholders\x27 equity",
   "Total Shareholders Equity",
   "Ordinary Shares",
   "Total liabilities and equity"]

/-- Worker for get_equity_from_balance_sheet: try each candidate label in
order; the first one present with a non-empty series yields its value at
offset 0; otherwise 0. -/
def getEquityAux : List String → List (String × List FVal) → FVal
  | [], _ => FVal.fin 0
  | k :: ks, bs =>
    match lookupRow bs k with
    | some (v :: _) => v
    | _ => getEquityAux ks bs

/-- get_equity_from_balance_sheet (src/FPP.py:26-41): resolve equity from the
balance sheet via the ordered candidate labels; the cell is returned raw. -/
def get_equity_from_balance_sheet (bs : List (String × List FVal)) : FVal :=
  getEquityAux equityCandidates bs

/-- get_from_financials (src/FPP.py:43-49): return the entry at period offset
`idx` of the first listed label present in the table whose series is long
enough; 0 when no label qualifies.  The cell is returned raw (uncoerced). -/
def get_from_financials (t : List (String × List FVal)) (keys : List String) (idx : ℕ) : FVal :=
  match keys with
  | [] => FVal.fin 0
  | k :: ks =>
    match (lookupRow t k).bind (fun vs => vs[idx]?) with
    | some v => v
    | none => get_from_financials t ks idx

/-- Specification-side form of the resolver: the first qualifying (label
present, offset in range) raw entry in declared alias order, if any. -/
def resolveFirst (t : List (String × List FVal)) (keys : List String) (idx : ℕ) : Option FVal :=
  (keys.filterMap (fun k => (lookupRow t k).bind (fun vs => vs[idx]?))).head?

/-- The trailing-ROE sample (src/FPP.py:73-78): for each of up to 5 most
recent periods (bounded by the income statement's column count), pair net
income at that offset with equity from the matching balance-sheet column and
keep `ni / eq * 100` exactly when `eq != 0` under float comparison (NaN
equity passes the test and contributes a NaN entry). -/
def roesList (financials balance_sheet : List (String × List FVal)) : List FVal :=
  (List.range (min 5 (ncols financials))).filterMap (fun i =>
    let ni := get_from_financials financials ["Net Income"] i
    let eq := get_equity_from_balance_sheet (sliceCol balance_sheet i)
    if FVal.fne eq (FVal.fin 0) then some ((ni.fdiv eq).fmul (FVal.fin 100)) else none)

/-- np.mean over a float list: sum divided by length (NaN-propagating). -/
def npMean (l : List FVal) : FVal :=
  (l.foldl FVal.fadd (FVal.fin 0)).fdiv (FVal.fin l.length)

/-- roe_5y (src/FPP.py:79): the mean of the qualifying trailing ROE values,
or 0 when no period qualified. -/
def roe_5y_calc (financials balance_sheet : List (String × List FVal)) : FVal :=
  let roes := roesList financials balance_sheet
  if roes.isEmpty then FVal.fin 0 else npMean roes

/-- eps_growth_5y (src/FPP.py:81-83): the profile's annual earnings growth as
a percentage, replaced by the quarterly figure (as a percentage) when it
compares equal to 0. -/
def eps_growth_calc (info : List (String × PyVal)) : FVal :=
  let g := (safe_get info "earningsGrowth" (FVal.fin 0)).fmul (FVal.fin 100)
  if FVal.feq g (FVal.fin 0) then
    (safe_get info "earningsQuarterlyGrowth" (FVal.fin 0)).fmul (FVal.fin 100)
  else g

/-- payout_ratio (src/FPP.py:87-93): the profile's payout ratio as a
percentage; when it compares equal to 0 and both dividend yield and trailing
EPS are strictly positive, derived as dividend yield × last price ÷ EPS × 100. -/
def payout_calc (info : List (String × PyVal)) (last_price : FVal) : FVal :=
  let p := (safe_get info "payoutRatio" (FVal.fin 0)).fmul (FVal.fin 100)
  if FVal.feq p (FVal.fin 0) then
    let dividend_yield := safe_get info "dividendYield" (FVal.fin 0)
    let eps := safe_get info "trailingEps" (FVal.fin 0)
    if FVal.flt (FVal.fin 0) dividend_yield && FVal.flt (FVal.fin 0) eps then
      ((dividend_yield.fmul last_price).fdiv eps).fmul (FVal.fin 100)
    else p
  else p

/-- The ResolvedFundamentals record returned by fetch_fundamental_data
(src/FPP.py:99-114), one FVal per canonical field. -/
structure Fundamentals where
  shares : FVal
  last_price : FVal
  pendapatan : FVal
  profit : FVal
  equity : FVal
  roe_annual : FVal
  roe_5y : FVal
  eps_growth_5y : FVal
  sps_growth_annual : FVal
  sps_growth_5y : FVal
  dpr : FVal
  avg_pbv : FVal
  avg_per : FVal
  avg_psr : FVal
deriving DecidableEq

/-- fetch_fundamental_data (src/FPP.py:51-117), restricted to its pure core:
`none` models the explicit unavailable outcome taken when either statement
table is empty; the provider-exception path (also `None` in the source) is
outside this numeric model.  `history` is the `Close` column of the price
history, oldest first. -/
def fetch_fundamental_data (info : List (String × PyVal))
    (financials balance_sheet : List (String × List FVal))
    (history : List FVal) : Option Fundamentals :=
  if tableEmpty financials || tableEmpty balance_sheet then none
  else
    let shares_outstanding := safe_get info "sharesOutstanding" (FVal.fin 0)
    let shares := if FVal.flt (FVal.fin 0) shares_outstanding
      then shares_outstanding.fdiv (FVal.fin 1000000) else FVal.fin 0
    let histLast := match history.getLast? with
      | some v => v
      | none => FVal.fin 0
    let last_price := safe_get info "currentPrice" histLast
    let revenue := get_from_financials financials ["Total Revenue", "Revenue"] 0
    let net_income := get_from_financials financials
      ["Net Income", "Net Income Common Stockholders"] 0
    let equity := get_equity_from_balance_sheet balance_sheet
    let roe_annual := if FVal.fne equity (FVal.fin 0)
      then (net_income.fdiv equity).fmul (FVal.fin 100) else FVal.fin 0
    some
      { shares := shares
        last_price := last_price
        pendapatan := revenue
        profit := net_income
        equity := equity
        roe_annual := roe_annual
        roe_5y := roe_5y_calc financials balance_sheet
        eps_growth_5y := eps_growth_calc info
        sps_growth_annual := (safe_get info "revenueGrowth" (FVal.fin 0)).fmul (FVal.fin 100)
        sps_growth_5y := (safe_get info "revenueGrowth" (FVal.fin 0)).fmul (FVal.fin 100)
        dpr := payout_calc info last_price
        avg_pbv := safe_get info "priceToBook" (FVal.fin 0)
        avg_per := safe_get info "trailingPE" (FVal.fin 0)
        avg_psr := safe_get info "priceToSalesTrailing12Months" (FVal.fin 0) }

/-- shares_outstanding (src/FPP.py:171): share count in millions × 1,000,000. -/
def shares_outstanding (shares : FVal) : FVal := shares.fmul (FVal.fin 1000000)

/-- book_value_per_share (src/FPP.py:172): equity per share, 0 unless the
absolute share count is strictly positive. -/
def book_value_per_share (equity shares : FVal) : FVal :=
  if FVal.flt (FVal.fin 0) (shares_outstanding shares)
  then equity.fdiv (shares_outstanding shares) else FVal.fin 0

/-- eps_current (src/FPP.py:173): profit per share under the same guard. -/
def eps_current (profit shares : FVal) : FVal :=
  if FVal.flt (FVal.fin 0) (shares_outstanding shares)
  then profit.fdiv (shares_outstanding shares) else FVal.fin 0

/-- sps_current (src/FPP.py:174): revenue per share under the same guard. -/
def sps_current (pendapatan shares : FVal) : FVal :=
  if FVal.flt (FVal.fin 0) (shares_outstanding shares)
  then pendapatan.fdiv (shares_outstanding shares) else FVal.fin 0

/-- One compounded projection column (src/FPP.py:186-188): for each forecast
index i in 0..4, `base * (1 + rate) ^ (i + 1)`, where `rate` is the growth or
return figure divided by 100 (src/FPP.py:177-179). -/
def compound5 (base ratePct : FVal) : List FVal :=
  (List.range 5).map (fun i =>
    base.fmul (((FVal.fin 1).fadd (ratePct.fdiv (FVal.fin 100))).fpow (i + 1)))

/-- bv_fv (src/FPP.py:186). -/
def bv_fv (book_value_per_share roe_5y : FVal) : List FVal :=
  compound5 book_value_per_share roe_5y

/-- eps_fv (src/FPP.py:187). -/
def eps_fv (eps_current eps_growth_5y : FVal) : List FVal :=
  compound5 eps_current eps_growth_5y

/-- sps_fv (src/FPP.py:188). -/
def sps_fv (sps_current sps_growth_5y : FVal) : List FVal :=
  compound5 sps_current sps_growth_5y

/-- Future price column (src/FPP.py:191-193): each projected metric times the
corresponding average multiple. -/
def priceCol (metricCol : List FVal) (avgMultiple : FVal) : List FVal :=
  metricCol.map (fun m => m.fmul avgMultiple)

/-- Terminal-year extraction `future_df.iloc[-1][...]` (src/FPP.py:215-217):
the last entry of a projection column (the columns always have 5 entries). -/
def lastOf (l : List FVal) : FVal := l.getLastD (FVal.fin 0)

/-- future_price_final (src/FPP.py:219): np.nanmean of the three terminal
future-price estimates — the mean of the non-NaN ones, NaN when all three
are NaN. -/
def future_price_final (a b c : FVal) : FVal :=
  let xs := [a, b, c].filterMap (fun v => match v with
    | FVal.fin q => some q
    | FVal.nan => none)
  if xs.isEmpty then FVal.nan else FVal.fin (xs.sum / (xs.length : ℚ))

/-- gain_loss (src/FPP.py:222): percentage gain over the current price, 0
unless the current price is strictly positive. -/
def gain_loss (future last : FVal) : FVal :=
  if FVal.flt (FVal.fin 0) last
  then ((future.fdiv last).fsub (FVal.fin 1)).fmul (FVal.fin 100) else FVal.fin 0

/-- Annual Return (src/FPP.py:230): gain_loss divided by 5. -/
def annual_return (future last : FVal) : FVal :=
  (gain_loss future last).fdiv (FVal.fin 5)

/-- margin_of_safety (src/FPP.py:223): Python `max(0, ...)` of the discount
of the current price below the blended future price, 0 unless the blended
future price is strictly positive. -/
def margin_of_safety (future last : FVal) : FVal :=
  if FVal.flt (FVal.fin 0) future
  then FVal.pymax (FVal.fin 0) (((future.fsub last).fdiv future).fmul (FVal.fin 100))
  else FVal.fin 0

/-- cagr (src/FPP.py:224), relationally: when the current price is not
strictly positive the code yields 0; otherwise it computes
`(future / last) ** (1 / 5) - 1` in float arithmetic, which is NaN (`none`)
when the ratio is NaN or negative, and otherwise `x - 1` for the unique
nonnegative real fifth root `x` of the ratio. -/
inductive CagrRel : FVal → FVal → Option ℝ → Prop where
  | nonpos (future last : FVal) (h : FVal.flt (FVal.fin 0) last = false) :
      CagrRel future last (some 0)
  | ratio_nan (future last : FVal) (h : FVal.flt (FVal.fin 0) last = true)
      (h2 : future.fdiv last = FVal.nan) : CagrRel future last none
  | ratio_neg (future last : FVal) (q : ℚ) (h : FVal.flt (FVal.fin 0) last = true)
      (h2 : future.fdiv last = FVal.fin q) (h3 : q < 0) : CagrRel future last none
  | root (future last : FVal) (q : ℚ) (x : ℝ) (h : FVal.flt (FVal.fin 0) last = true)
      (h2 : future.fdiv last = FVal.fin q) (h3 : 0 ≤ q) (h4 : 0 ≤ x)
      (h5 : x ^ (5 : ℕ) = (q : ℝ)) : CagrRel future last (some (x - 1))

/-- Book value per share in the end-to-end scenario of the spec (equity 8e9,
10 million shares). -/
def bvC : FVal := book_value_per_share (FVal.fin 8000000000) (FVal.fin 10)

/-- Earnings per share in the end-to-end scenario (net income 1e9). -/
def epsC : FVal := eps_current (FVal.fin 1000000000) (FVal.fin 10)

/-- Sales per share in the end-to-end scenario (revenue 5e9). -/
def spsC : FVal := sps_current (FVal.fin 5000000000) (FVal.fin 10)

/-- Year-5 future price via PBV in the scenario (ROE 12%, PBV 1.5). -/
def p5pbvC : FVal := lastOf (priceCol (bv_fv bvC (FVal.fin 12)) (FVal.fin (3 / 2)))

/-- Year-5 future price via PER in the scenario (EPS growth 10%, PER 10). -/
def p5perC : FVal := lastOf (priceCol (eps_fv epsC (FVal.fin 10)) (FVal.fin 10))

/-- Year-5 future price via PSR in the scenario (SPS growth 8%, PSR 2). -/
def p5psrC : FVal := lastOf (priceCol (sps_fv spsC (FVal.fin 8)) (FVal.fin 2))

/-- Blended terminal future price in the scenario. -/
def blendC : FVal := future_price_final p5pbvC p5perC p5psrC

/-- The record fetch_fundamental_data produces from an empty profile, an
income statement carrying only `Total Revenue = 5`, and a balance sheet
carrying only `Total Equity = 2`. -/
def recC : Fundamentals :=
  { shares := FVal.fin 0
    last_price := FVal.fin 0
    pendapatan := FVal.fin 5
    profit := FVal.fin 0
    equity := FVal.fin 2
    roe_annual := FVal.fin 0
    roe_5y := FVal.fin 0
    eps_growth_5y := FVal.fin 0
    sps_growth_annual := FVal.fin 0
    sps_growth_5y := FVal.fin 0
    dpr := FVal.fin 0
    avg_pbv := FVal.fin 0
    avg_per := FVal.fin 0
    avg_psr := FVal.fin 0 }

/-- Profile record with a genuinely zero annual earnings-growth figure and a
5% quarterly figure. -/
def infoG : List (String × PyVal) :=
  [("earningsGrowth", PyVal.num (FVal.fin 0)),
   ("earningsQuarterlyGrowth", PyVal.num (FVal.fin (1 / 20)))]

/-- The margin of safety is always a finite nonnegative number: Python
`max(0, x)` returns 0 on a NaN `x`, and the whole expression is guarded by
`future > 0`. -/
theorem margin_fin_nonneg (future last : FVal) :
    ∃ q : ℚ, margin_of_safety future last = FVal.fin q ∧ 0 ≤ q := by
  unfold margin_of_safety
  cases future with
  | nan => exact ⟨0, by simp [FVal.flt], le_refl 0⟩
  | fin qf =>
    by_cases hf : (0 : ℚ) < qf
    · cases last with
      | nan =>
        refine ⟨0, ?_, le_refl 0⟩
        simp [FVal.flt, hf, FVal.fsub, FVal.fdiv, FVal.fmul, FVal.pymax]
      | fin ql =>
        have hf0 : qf ≠ 0 := ne_of_gt hf
        refine ⟨max 0 ((qf - ql) / qf * 100), ?_, le_max_left _ _⟩
        simp only [FVal.flt, hf, decide_eq_true_eq, if_pos, FVal.fsub, FVal.fdiv, hf0,
          if_false, FVal.fmul, FVal.pymax]
        rcases le_or_lt ((qf - ql) / qf * 100) 0 with h | h
        · have hnot : ¬ (0 : ℚ) < (qf - ql) / qf * 100 := not_lt.mpr h
          simp [FVal.flt, hnot, max_eq_left h]
        · simp [FVal.flt, h, max_eq_right (le_of_lt h)]
    · refine ⟨0, ?_, le_refl 0⟩
      simp [FVal.flt, hf]

/-- safe_get with a finite default always yields a finite value. -/
theorem safe_get_fin (obj : List (String × PyVal)) (key : String) (q : ℚ) :
    ∃ r : ℚ, safe_get obj key (FVal.fin q) = FVal.fin r := by
  unfold safe_get
  cases h : lookupRec obj key with
  | none => exact ⟨q, rfl⟩
  | some v =>
    cases v with
    | null => exact ⟨q, rfl⟩
    | junk => exact ⟨q, rfl⟩
    | num f => cases f with
      | fin r => exact ⟨r, rfl⟩
      | nan => exact ⟨q, rfl⟩

/-- The assembled earnings-growth field is always finite: both the annual
value and the quarterly fallback come from safe_get with a finite default. -/
theorem eps_growth_calc_fin (info : List (String × PyVal)) :
    ∃ r : ℚ, eps_growth_calc info = FVal.fin r := by
  unfold eps_growth_calc
  obtain ⟨a, ha⟩ := safe_get_fin info "earningsGrowth" 0
  obtain ⟨b, hb⟩ := safe_get_fin info "earningsQuarterlyGrowth" 0
  rw [ha, hb]
  simp only [FVal.fmul]
  by_cases h : FVal.feq (FVal.fin (a * 100)) (FVal.fin 0) = true
  · exact ⟨b * 100, by rw [if_pos h]⟩
  · exact ⟨a * 100, by rw [if_neg h]⟩

/-- Multiplying two finite values yields a finite value. -/
theorem isFinite_fmul {a b : FVal} (ha : a.isFinite = true) (hb : b.isFinite = true) :
    (a.fmul b).isFinite = true := by
  cases a with
  | nan => exact absurd ha (by simp [FVal.isFinite])
  | fin qa => cases b with
    | nan => exact absurd hb (by simp [FVal.isFinite])
    | fin qb => rfl

/-- C9: safe_get returns the value coerced to a float, and the default
whenever the key is absent, the value is null or NaN, or coercion raises; it
is a total function (never raises). -/
theorem safe_get_contract (obj : List (String × PyVal)) (key : String) (d : FVal) :
    (lookupRec obj key = none → safe_get obj key d = d) ∧
    (lookupRec obj key = some PyVal.null → safe_get obj key d = d) ∧
    (lookupRec obj key = some PyVal.junk → safe_get obj key d = d) ∧
    (lookupRec obj key = some (PyVal.num FVal.nan) → safe_get obj key d = d) ∧
    (∀ q : ℚ, lookupRec obj key = some (PyVal.num (FVal.fin q)) →
      safe_get obj key d = FVal.fin q) := by
  refine ⟨fun h => ?_, fun h => ?_, fun h => ?_, fun h => ?_, fun q h => ?_⟩ <;>
    simp [safe_get, h]

/-- Witness for C9 at a concrete record: a present numeric key is returned,
an absent key and a null value fall back to the default. -/
theorem safe_get_contract_witness :
    safe_get [("a", PyVal.num (FVal.fin 3)), ("b", PyVal.null)] "a" (FVal.fin 0)
        = FVal.fin 3 ∧
    safe_get [("a", PyVal.num (FVal.fin 3)), ("b", PyVal.null)] "b" (FVal.fin 7)
        = FVal.fin 7 ∧
    safe_get [("a", PyVal.num (FVal.fin 3)), ("b", PyVal.null)] "zz" (FVal.fin 9)
        = FVal.fin 9 := by
  refine ⟨(safe_get_contract _ "a" _).2.2.2.2 3 ?_, (safe_get_contract _ "b" _).2.1 ?_,
    (safe_get_contract _ "zz" _).1 ?_⟩ <;> simp +decide [lookupRec, List.find?]

/-- C10: the assembled earnings-growth field is the profile's annual figure
as a percentage when that figure is nonzero, and is the quarterly figure as a
percentage exactly when the annual figure resolves to 0 — a resolved 0
(genuine or not) always triggers the quarterly fallback. -/
theorem eps_growth_fallback (info : List (String × PyVal)) :
    (safe_get info "earningsGrowth" (FVal.fin 0) = FVal.fin 0 →
      eps_growth_calc info =
        (safe_get info "earningsQuarterlyGrowth" (FVal.fin 0)).fmul (FVal.fin 100)) ∧
    (∀ q : ℚ, q ≠ 0 → safe_get info "earningsGrowth" (FVal.fin 0) = FVal.fin q →
      eps_growth_calc info = FVal.fin (q * 100)) := by
  constructor
  · intro h
    simp [eps_growth_calc, h, FVal.fmul, FVal.feq]
  · intro q hq h
    have h100 : q * 100 ≠ 0 := mul_ne_zero hq (by norm_num)
    simp [eps_growth_calc, h, FVal.fmul, FVal.feq, h100]

/-- Witness for C10: a genuine zero annual growth triggers the quarterly
fallback (5%). -/
theorem eps_growth_fallback_witness :
    eps_growth_calc infoG =
      (safe_get infoG "earningsQuarterlyGrowth" (FVal.fin 0)).fmul (FVal.fin 100) ∧
    (safe_get infoG "earningsQuarterlyGrowth" (FVal.fin 0)).fmul (FVal.fin 100)
      = FVal.fin 5 := by
  constructor
  · refine (eps_growth_fallback infoG).1 ?_
    simp +decide [safe_get, lookupRec, infoG, List.find?]
  · simp +decide [safe_get, lookupRec, infoG, List.find?, FVal.fmul]
    norm_num

/-- C7 counterexample: the field resolver returns the statement cell raw, not
coerced by the numeric coercion utility — a NaN cell flows straight through,
so the result is not a well-formed number (the coercion utility would have
produced the 0 default). -/
theorem field_resolver_counterexample :
    get_from_financials [("Total Revenue", [FVal.nan])] ["Total Revenue", "Revenue"] 0
        = FVal.nan ∧
    FVal.nan.isFinite = false := by
  constructor
  · simp +decide [get_from_financials, lookupRow, List.find?]
  · rfl

/-- C7 amended: the field resolver iterates the aliases in declared order and
returns the raw (uncoerced, possibly NaN) entry at the requested offset of
the first present label whose period sequence has an entry there; it returns
0 when no alias qualifies, and is total. -/
theorem field_resolver_amended (t : List (String × List FVal)) (keys : List String) (idx : ℕ) :
    get_from_financials t keys idx = (resolveFirst t keys idx).getD (FVal.fin 0) := by
  induction keys with
  | nil => rfl
  | cons k ks ih =>
    unfold get_from_financials resolveFirst
    cases h : (lookupRow t k).bind (fun vs => vs[idx]?) with
    | none => simpa [List.filterMap_cons, h, resolveFirst] using ih
    | some v => simp [List.filterMap_cons, h]

/-- C4 counterexample: a non-empty income statement with an empty balance
sheet already yields the unavailable outcome — the resolver checks the two
tables with `or`, not `and`. -/
theorem resolve_unavailable_counterexample :
    fetch_fundamental_data [] [("Net Income", [FVal.fin 1])] [] [] = none ∧
    tableEmpty [("Net Income", [FVal.fin 1])] = false := by
  constructor
  · simp +decide [fetch_fundamental_data, tableEmpty]
  · rfl

/-- C4 amended: the resolver returns the unavailable signal exactly when the
income statement is empty or the balance sheet is empty; when both are
non-empty a ResolvedFundamentals record is produced (the provider-exception
path is outside the model). -/
theorem resolve_unavailable_amended (info : List (String × PyVal))
    (financials balance_sheet : List (String × List FVal)) (history : List FVal) :
    fetch_fundamental_data info financials balance_sheet history = none ↔
      (tableEmpty financials = true ∨ tableEmpty balance_sheet = true) := by
  unfold fetch_fundamental_data
  cases hf : tableEmpty financials <;> cases hb : tableEmpty balance_sheet <;> simp [hf, hb]

/-- C6: the trailing-average ROE iterates over at most 5 periods bounded by
the income-statement column count, skips zero-equity periods instead of
counting them as zero, and averages exactly the qualifying periods: equities
[100, 0, 50] with net incomes [10, 5, 5] yield exactly 10%, not 20/3 %. -/
theorem roe_trailing_average_spec :
    roe_5y_calc [("Net Income", [FVal.fin 10, FVal.fin 5, FVal.fin 5])]
        [("Total Equity", [FVal.fin 100, FVal.fin 0, FVal.fin 50])] = FVal.fin 10 ∧
    FVal.fin (10 : ℚ) ≠ FVal.fin (20 / 3) ∧
    ∀ financials balance_sheet : List (String × List FVal),
      (roesList financials balance_sheet).length ≤ min 5 (ncols financials) := by
  refine ⟨?_, ?_, ?_⟩
  · simp +decide [roe_5y_calc, roesList, npMean, ncols, get_from_financials,
      get_equity_from_balance_sheet, getEquityAux, equityCandidates, sliceCol,
      lookupRow, List.find?, List.range_succ, FVal.fne, FVal.feq, FVal.fdiv,
      FVal.fmul, FVal.fadd]
    norm_num
  · intro h
    have : (10 : ℚ) = 20 / 3 := FVal.fin.inj h
    norm_num at this
  · intro f bs
    calc (roesList f bs).length
        ≤ (List.range (min 5 (ncols f))).length := List.length_filterMap_le _ _
      _ = min 5 (ncols f) := List.length_range _

/-- C5: the margin of safety is a nonnegative finite number for every
combination of blended future price and current price; it equals
max(0, (future − last) ÷ future × 100) whenever the blended future price is a
positive finite number and the current price is finite (including
current > blended), and it is 0 whenever the blended future price is ≤ 0. -/
theorem margin_of_safety_nonneg (future last : FVal) :
    (∃ q : ℚ, margin_of_safety future last = FVal.fin q ∧ 0 ≤ q) ∧
    (∀ qf ql : ℚ, future = FVal.fin qf → last = FVal.fin ql → 0 < qf →
      margin_of_safety future last = FVal.fin (max 0 ((qf - ql) / qf * 100))) ∧
    (∀ qf : ℚ, future = FVal.fin qf → qf ≤ 0 →
      margin_of_safety future last = FVal.fin 0) := by
  refine ⟨margin_fin_nonneg future last, ?_, ?_⟩
  · rintro qf ql rfl rfl hf
    have hf0 : qf ≠ 0 := ne_of_gt hf
    unfold margin_of_safety
    simp only [FVal.flt, hf, decide_eq_true_eq, if_pos, FVal.fsub, FVal.fdiv, hf0,
      if_false, FVal.fmul, FVal.pymax]
    rcases le_or_lt ((qf - ql) / qf * 100) 0 with h | h
    · have hnot : ¬ (0 : ℚ) < (qf - ql) / qf * 100 := not_lt.mpr h
      simp [FVal.flt, hnot, max_eq_left h]
    · simp [FVal.flt, h, max_eq_right (le_of_lt h)]
  · rintro qf rfl hf
    have : ¬ (0 : ℚ) < qf := not_lt.mpr hf
    simp [margin_of_safety, FVal.flt, this]

/-- Witness for C5: blended future price 50 against current price 80 — the
raw discount is −60%, and the computed margin of safety is its floor at 0. -/
theorem margin_of_safety_nonneg_witness :
    margin_of_safety (FVal.fin 50) (FVal.fin 80)
        = FVal.fin (max 0 ((50 - 80) / 50 * 100)) ∧
    max (0 : ℚ) ((50 - 80) / 50 * 100) = 0 := by
  refine ⟨(margin_of_safety_nonneg (FVal.fin 50) (FVal.fin 80)).2.1 50 80 rfl rfl
    (by norm_num), by norm_num⟩

/-- C2 counterexample: with current price 0 and blended future price 50 the
code computes a margin of safety of 100%, not 0 — the margin guard tests the
blended future price, not the current price. -/
theorem zero_price_margin_counterexample :
    margin_of_safety (FVal.fin 50) (FVal.fin 0) = FVal.fin 100 ∧
    (100 : ℚ) ≠ 0 := by
  constructor
  · simp +decide [margin_of_safety, FVal.flt, FVal.fsub, FVal.fdiv, FVal.fmul, FVal.pymax]
  · norm_num

/-- C2 amended: when the current price is 0, gain/loss, annualized return and
CAGR all resolve to 0 without raising, for every blended future price; the
margin of safety instead resolves to max(0, (blend − 0) ÷ blend × 100), i.e.
100 when the blended future price is positive and 0 otherwise. -/
theorem zero_price_summary_amended (future : FVal) :
    gain_loss future (FVal.fin 0) = FVal.fin 0 ∧
    annual_return future (FVal.fin 0) = FVal.fin 0 ∧
    CagrRel future (FVal.fin 0) (some 0) ∧
    (∀ y, CagrRel future (FVal.fin 0) y → y = some 0) ∧
    (∀ qf : ℚ, future = FVal.fin qf → 0 < qf →
      margin_of_safety future (FVal.fin 0) = FVal.fin 100) ∧
    (FVal.flt (FVal.fin 0) future = false →
      margin_of_safety future (FVal.fin 0) = FVal.fin 0) := by
  have hlt : FVal.flt (FVal.fin 0) (FVal.fin 0) = false := by
    simp [FVal.flt]
  refine ⟨?_, ?_, CagrRel.nonpos future (FVal.fin 0) hlt, ?_, ?_, ?_⟩
  · simp [gain_loss, hlt]
  · simp [annual_return, gain_loss, hlt, FVal.fdiv]
  · intro y h
    cases h with
    | nonpos _ => rfl
    | ratio_nan hl _ => simp [FVal.flt] at hl
    | ratio_neg q hl h2 h3 => simp [FVal.flt] at hl
    | root q x hl h2 h3 h4 h5 => simp [FVal.flt] at hl
  · rintro qf rfl hf
    have hf0 : qf ≠ 0 := ne_of_gt hf
    have h100 : (0 : ℚ) < qf / qf * 100 := by
      rw [div_self hf0]; norm_num
    simp [margin_of_safety, FVal.flt, hf, FVal.fsub, FVal.fdiv, hf0, FVal.fmul,
      FVal.pymax, h100, div_self hf0]
  · intro h
    simp [margin_of_safety, h]

/-- Witness for C2 at blended future price 50 (gain/loss and CAGR collapse to
0, margin of safety to the full 100%). -/
theorem zero_price_summary_witness :
    gain_loss (FVal.fin 50) (FVal.fin 0) = FVal.fin 0 ∧
    CagrRel (FVal.fin 50) (FVal.fin 0) (some 0) ∧
    margin_of_safety (FVal.fin 50) (FVal.fin 0) = FVal.fin 100 := by
  exact ⟨(zero_price_summary_amended (FVal.fin 50)).1,
    (zero_price_summary_amended (FVal.fin 50)).2.2.1,
    (zero_price_summary_amended (FVal.fin 50)).2.2.2.2.1 50 rfl (by norm_num)⟩

/-- C3 counterexample: when all three terminal future-price estimates are NaN
and the current price is positive, the NaN blend flows into gain/loss and the
annualized return — the NaN is not guarded to 0. -/
theorem summary_nan_counterexample :
    future_price_final FVal.nan FVal.nan FVal.nan = FVal.nan ∧
    gain_loss FVal.nan (FVal.fin 100) = FVal.nan ∧
    annual_return FVal.nan (FVal.fin 100) = FVal.nan := by
  refine ⟨rfl, ?_, ?_⟩ <;>
    simp +decide [gain_loss, annual_return, FVal.flt, FVal.fdiv, FVal.fsub, FVal.fmul]

/-- C3 amended: when all three estimates are NaN the blend is NaN; the margin
of safety is then 0 (and is a finite nonnegative number for every input), but
gain/loss, annualized return and CAGR all become NaN whenever the current
price is positive — NaN is guarded out of those fields only when the current
price is not positive, in which case they are 0. -/
theorem summary_nan_amended :
    future_price_final FVal.nan FVal.nan FVal.nan = FVal.nan ∧
    (∀ last : FVal, margin_of_safety FVal.nan last = FVal.fin 0) ∧
    (∀ future last : FVal, ∃ q : ℚ, margin_of_safety future last = FVal.fin q ∧ 0 ≤ q) ∧
    (∀ last : FVal, FVal.flt (FVal.fin 0) last = true →
      gain_loss FVal.nan last = FVal.nan ∧
      annual_return FVal.nan last = FVal.nan ∧
      CagrRel FVal.nan last none) ∧
    (∀ last : FVal, FVal.flt (FVal.fin 0) last = false →
      gain_loss FVal.nan last = FVal.fin 0 ∧
      annual_return FVal.nan last = FVal.fin 0 ∧
      ∀ y, CagrRel FVal.nan last y → y = some 0) := by
  refine ⟨rfl, ?_, margin_fin_nonneg, ?_, ?_⟩
  · intro last
    simp [margin_of_safety, FVal.flt]
  · intro last h
    have hdiv : FVal.fdiv FVal.nan last = FVal.nan := by
      cases last <;> rfl
    refine ⟨?_, ?_, CagrRel.ratio_nan FVal.nan last h hdiv⟩
    · simp [gain_loss, h, hdiv, FVal.fsub, FVal.fmul]
    · simp [annual_return, gain_loss, h, hdiv, FVal.fsub, FVal.fmul, FVal.fdiv]
  · intro last h
    refine ⟨by simp [gain_loss, h], by simp [annual_return, gain_loss, h, FVal.fdiv], ?_⟩
    intro y hy
    cases hy with
    | nonpos _ => rfl
    | ratio_nan hl h2 => simp [h] at hl
    | ratio_neg q hl h2 h3 => simp [h] at hl
    | root q x hl h2 h3 h4 h5 => simp [h] at hl

/-- Witness for C3 at current prices 100 and 0. -/
theorem summary_nan_witness :
    gain_loss FVal.nan (FVal.fin 100) = FVal.nan ∧
    CagrRel FVal.nan (FVal.fin 100) none ∧
    gain_loss FVal.nan (FVal.fin 0) = FVal.fin 0 := by
  have h100 : FVal.flt (FVal.fin 0) (FVal.fin 100) = true := by
    simp +decide [FVal.flt]
  have h0 : FVal.flt (FVal.fin 0) (FVal.fin 0) = false := by
    simp [FVal.flt]
  exact ⟨(summary_nan_amended.2.2.2.1 (FVal.fin 100) h100).1,
    (summary_nan_amended.2.2.2.1 (FVal.fin 100) h100).2.2,
    (summary_nan_amended.2.2.2.2 (FVal.fin 0) h0).1⟩

/-- C8 counterexample: a NaN cell in the income statement flows raw into the
revenue field of the resolved record — not every field is a finite number. -/
theorem fundamentals_finite_counterexample :
    (fetch_fundamental_data [] [("Total Revenue", [FVal.nan])]
        [("Total Equity", [FVal.fin 1])] []).map Fundamentals.pendapatan
      = some FVal.nan := by
  simp +decide [fetch_fundamental_data, tableEmpty, get_from_financials, lookupRow,
    List.find?]

/-- C8 amended: in every resolved record, the fields read from the profile
via the numeric coercion utility — share count, earnings growth, both sales
growths, and the three valuation multiples — are finite numbers defaulting
to 0; the statement-resolved fields (revenue, net income, equity), the ROE
fields derived from them, the history-fallback last price and the derived
payout ratio may instead carry NaN through raw. -/
theorem fundamentals_finite_amended (info : List (String × PyVal))
    (financials balance_sheet : List (String × List FVal)) (history : List FVal)
    (d : Fundamentals)
    (h : fetch_fundamental_data info financials balance_sheet history = some d) :
    d.shares.isFinite = true ∧ d.eps_growth_5y.isFinite = true ∧
    d.sps_growth_annual.isFinite = true ∧ d.sps_growth_5y.isFinite = true ∧
    d.avg_pbv.isFinite = true ∧ d.avg_per.isFinite = true ∧
    d.avg_psr.isFinite = true := by
  unfold fetch_fundamental_data at h
  by_cases hc : (tableEmpty financials || tableEmpty balance_sheet) = true
  · rw [if_pos hc] at h
    exact absurd h (by simp)
  · rw [if_neg hc] at h
    obtain rfl := Option.some.inj h
    obtain ⟨s, hs⟩ := safe_get_fin info "sharesOutstanding" 0
    obtain ⟨e, he⟩ := eps_growth_calc_fin info
    obtain ⟨g, hg⟩ := safe_get_fin info "revenueGrowth" 0
    obtain ⟨b1, hb1⟩ := safe_get_fin info "priceToBook" 0
    obtain ⟨b2, hb2⟩ := safe_get_fin info "trailingPE" 0
    obtain ⟨b3, hb3⟩ := safe_get_fin info "priceToSalesTrailing12Months" 0
    refine ⟨?_, ?_, ?_, ?_, ?_, ?_, ?_⟩
    · show (if FVal.flt (FVal.fin 0) (safe_get info "sharesOutstanding" (FVal.fin 0))
        then (safe_get info "sharesOutstanding" (FVal.fin 0)).fdiv (FVal.fin 1000000)
        else FVal.fin 0).isFinite = true
      rw [hs]
      split
      · simp [FVal.fdiv, FVal.isFinite]
      · rfl
    · show (eps_growth_calc info).isFinite = true
      rw [he]; rfl
    · show ((safe_get info "revenueGrowth" (FVal.fin 0)).fmul (FVal.fin 100)).isFinite = true
      rw [hg]; rfl
    · show ((safe_get info "revenueGrowth" (FVal.fin 0)).fmul (FVal.fin 100)).isFinite = true
      rw [hg]; rfl
    · show (safe_get info "priceToBook" (FVal.fin 0)).isFinite = true
      rw [hb1]; rfl
    · show (safe_get info "trailingPE" (FVal.fin 0)).isFinite = true
      rw [hb2]; rfl
    · show (safe_get info "priceToSalesTrailing12Months" (FVal.fin 0)).isFinite = true
      rw [hb3]; rfl

/-- Witness for C8 on a minimal concrete input (empty profile, one-row
statement tables). -/
theorem fundamentals_finite_witness :
    fetch_fundamental_data [] [("Total Revenue", [FVal.fin 5])]
        [("Total Equity", [FVal.fin 2])] [] = some recC ∧
    recC.shares.isFinite = true ∧ recC.avg_psr.isFinite = true := by
  have hfetch : fetch_fundamental_data [] [("Total Revenue", [FVal.fin 5])]
      [("Total Equity", [FVal.fin 2])] [] = some recC := by
    simp +decide [fetch_fundamental_data, tableEmpty, get_from_financials, lookupRow,
      List.find?, get_equity_from_balance_sheet, getEquityAux, equityCandidates,
      sliceCol, roe_5y_calc, roesList, npMean, ncols, eps_growth_calc, payout_calc,
      safe_get, lookupRec, recC, FVal.fne, FVal.feq, FVal.fdiv, FVal.fmul, FVal.fadd,
      FVal.flt, List.range_succ]
  exact ⟨hfetch, (fundamentals_finite_amended _ _ _ _ recC hfetch).1,
    (fundamentals_finite_amended _ _ _ _ recC hfetch).2.2.2.2.2.2⟩

/-- Book value per share in the scenario: 8e9 / (10 × 1e6) = 800. -/
theorem bvC_eq : bvC = FVal.fin 800 := by
  norm_num [bvC, book_value_per_share, shares_outstanding, FVal.flt, FVal.fmul, FVal.fdiv]

/-- Earnings per share in the scenario: 1e9 / 1e7 = 100. -/
theorem epsC_eq : epsC = FVal.fin 100 := by
  norm_num [epsC, eps_current, shares_outstanding, FVal.flt, FVal.fmul, FVal.fdiv]

/-- Sales per share in the scenario: 5e9 / 1e7 = 500. -/
theorem spsC_eq : spsC = FVal.fin 500 := by
  norm_num [spsC, sps_current, shares_outstanding, FVal.flt, FVal.fmul, FVal.fdiv]

/-- Year-5 PBV-based future price: 800 × 1.12⁵ × 1.5. -/
theorem p5pbvC_eq : p5pbvC = FVal.fin (826097664 / 390625) := by
  rw [p5pbvC, bv_fv, bvC_eq]
  norm_num [compound5, priceCol, lastOf, List.range_succ, FVal.fadd, FVal.fdiv,
    FVal.fpow, FVal.fmul]

/-- Year-5 PER-based future price: 100 × 1.1⁵ × 10 = 1610.51. -/
theorem p5perC_eq : p5perC = FVal.fin (161051 / 100) := by
  rw [p5perC, eps_fv, epsC_eq]
  norm_num [compound5, priceCol, lastOf, List.range_succ, FVal.fadd, FVal.fdiv,
    FVal.fpow, FVal.fmul]

/-- Year-5 PSR-based future price: 500 × 1.08⁵ × 2. -/
theorem p5psrC_eq : p5psrC = FVal.fin (114791256 / 78125) := by
  rw [p5psrC, sps_fv, spsC_eq]
  norm_num [compound5, priceCol, lastOf, List.range_succ, FVal.fadd, FVal.fdiv,
    FVal.fpow, FVal.fmul]

/-- The blended terminal future price in the scenario. -/
theorem blendC_eq : blendC = FVal.fin (8116637651 / 4687500) := by
  rw [blendC, p5pbvC_eq, p5perC_eq, p5psrC_eq]
  norm_num [future_price_final, List.filterMap]

/-- The price ratio fed into the CAGR computation in the scenario. -/
theorem blend_ratio : blendC.fdiv (FVal.fin 100) = FVal.fin (8116637651 / 468750000) := by
  rw [blendC_eq]
  norm_num [FVal.fdiv]

/-- Any nonnegative real fifth root of the scenario's price ratio lies
strictly between 1.768 and 1.769. -/
theorem root_bounds {x : ℝ} (hx0 : 0 ≤ x)
    (hx5 : x ^ (5 : ℕ) = ((8116637651 / 468750000 : ℚ) : ℝ)) :
    (1768 / 1000 : ℝ) < x ∧ x < (1769 / 1000 : ℝ) := by
  have hlow : (1768 / 1000 : ℝ) ^ (5 : ℕ) < ((8116637651 / 468750000 : ℚ) : ℝ) := by
    push_cast
    norm_num
  have hhigh : ((8116637651 / 468750000 : ℚ) : ℝ) < (1769 / 1000 : ℝ) ^ (5 : ℕ) := by
    push_cast
    norm_num
  constructor
  · by_contra hle
    push_neg at hle
    have := pow_le_pow_left₀ hx0 hle 5
    rw [hx5] at this
    linarith
  · by_contra hge
    push_neg at hge
    have := pow_le_pow_left₀ (by norm_num : (0:ℝ) ≤ 1769 / 1000) hge 5
    rw [hx5] at this
    linarith

/-- The CAGR relation is inhabited at the scenario's blend and price 100, by
the real fifth root of the ratio, and its value lies in (0.768, 0.769). -/
theorem blend_root_exists :
    ∃ r : ℝ, CagrRel blendC (FVal.fin 100) (some r) ∧
      (768 / 1000 : ℝ) < r ∧ r < (769 / 1000 : ℝ) := by
  have hq : (0 : ℚ) ≤ 8116637651 / 468750000 := by norm_num
  have hq0 : (0 : ℝ) ≤ ((8116637651 / 468750000 : ℚ) : ℝ) := by exact_mod_cast hq
  refine ⟨((8116637651 / 468750000 : ℚ) : ℝ) ^ ((5 : ℝ)⁻¹) - 1, ?_, ?_⟩
  · have hx0 : 0 ≤ ((8116637651 / 468750000 : ℚ) : ℝ) ^ ((5 : ℝ)⁻¹) :=
      Real.rpow_nonneg hq0 _
    have hx5 : (((8116637651 / 468750000 : ℚ) : ℝ) ^ ((5 : ℝ)⁻¹)) ^ (5 : ℕ)
        = ((8116637651 / 468750000 : ℚ) : ℝ) := by
      rw [← Real.rpow_natCast (((8116637651 / 468750000 : ℚ) : ℝ) ^ ((5 : ℝ)⁻¹)) 5,
        ← Real.rpow_mul hq0,
        show ((5 : ℝ)⁻¹ * ((5 : ℕ) : ℝ)) = 1 by norm_num, Real.rpow_one]
    exact CagrRel.root blendC (FVal.fin 100) (8116637651 / 468750000)
      (((8116637651 / 468750000 : ℚ) : ℝ) ^ ((5 : ℝ)⁻¹))
      (by norm_num [FVal.flt]) blend_ratio hq hx0 hx5
  · have hx0 : 0 ≤ ((8116637651 / 468750000 : ℚ) : ℝ) ^ ((5 : ℝ)⁻¹) :=
      Real.rpow_nonneg hq0 _
    have hx5 : (((8116637651 / 468750000 : ℚ) : ℝ) ^ ((5 : ℝ)⁻¹)) ^ (5 : ℕ)
        = ((8116637651 / 468750000 : ℚ) : ℝ) := by
      rw [← Real.rpow_natCast (((8116637651 / 468750000 : ℚ) : ℝ) ^ ((5 : ℝ)⁻¹)) 5,
        ← Real.rpow_mul hq0,
        show ((5 : ℝ)⁻¹ * ((5 : ℕ) : ℝ)) = 1 by norm_num, Real.rpow_one]
    obtain ⟨h1, h2⟩ := root_bounds hx0 hx5
    constructor <;> linarith

/-- C1 counterexample: the scenario's compound annual growth rate is below
0.77, so it is not ≈ 78.6% — the spec's numeric evaluation of
(17.3155)^(0.2) − 1 is wrong (the true value is ≈ 0.769). -/
theorem cagr_scenario_not_78_6 :
    ¬ ∀ r : ℝ, CagrRel blendC (FVal.fin 100) (some r) → (77 / 100 : ℝ) < r := by
  intro hall
  obtain ⟨r, hrel, h1, h2⟩ := blend_root_exists
  have := hall r hrel
  linarith

/-- C1 amended: per-share metrics are aggregate ÷ (share count × 1e6), 0 when
the share count is 0; each projection column carries metric × (1 + rate)^(i+1)
and future price = projected metric × multiple for i = 0..4; in the concrete
scenario the year-5 future prices are ≈ 2114.80 / 1610.51 / 1469.33, the
blend ≈ 1731.55, gain/loss ≈ 1631.55%, and the CAGR is
(17.3155)^(0.2) − 1 ≈ 0.769 (76.9%), not 78.6%. -/
theorem projection_end_to_end_amended :
    (∀ agg s : ℚ, 0 < s →
      book_value_per_share (FVal.fin agg) (FVal.fin s) = FVal.fin (agg / (s * 1000000)) ∧
      eps_current (FVal.fin agg) (FVal.fin s) = FVal.fin (agg / (s * 1000000)) ∧
      sps_current (FVal.fin agg) (FVal.fin s) = FVal.fin (agg / (s * 1000000))) ∧
    (∀ agg : ℚ,
      book_value_per_share (FVal.fin agg) (FVal.fin 0) = FVal.fin 0 ∧
      eps_current (FVal.fin agg) (FVal.fin 0) = FVal.fin 0 ∧
      sps_current (FVal.fin agg) (FVal.fin 0) = FVal.fin 0) ∧
    (∀ base rate mult : FVal, ∀ i : ℕ, i < 5 →
      (compound5 base rate)[i]? =
        some (base.fmul (((FVal.fin 1).fadd (rate.fdiv (FVal.fin 100))).fpow (i + 1))) ∧
      (priceCol (compound5 base rate) mult)[i]? =
        some ((base.fmul (((FVal.fin 1).fadd (rate.fdiv (FVal.fin 100))).fpow (i + 1))).fmul
          mult)) ∧
    bvC = FVal.fin 800 ∧ epsC = FVal.fin 100 ∧ spsC = FVal.fin 500 ∧
    p5pbvC = FVal.fin (826097664 / 390625) ∧
    |(826097664 / 390625 : ℚ) - 2114.80| ≤ 2 / 100 ∧
    p5perC = FVal.fin (161051 / 100) ∧ (161051 / 100 : ℚ) = 1610.51 ∧
    p5psrC = FVal.fin (114791256 / 78125) ∧
    |(114791256 / 78125 : ℚ) - 1469.33| ≤ 1 / 100 ∧
    blendC = FVal.fin (8116637651 / 4687500) ∧
    |(8116637651 / 4687500 : ℚ) - 1731.55| ≤ 1 / 100 ∧
    gain_loss blendC (FVal.fin 100) = FVal.fin (7647887651 / 4687500) ∧
    |(7647887651 / 4687500 : ℚ) - 1631.55| ≤ 1 / 100 ∧
    (∃ r : ℝ, CagrRel blendC (FVal.fin 100) (some r) ∧
      (768 / 1000 : ℝ) < r ∧ r < (769 / 1000 : ℝ)) ∧
    (∀ y, CagrRel blendC (FVal.fin 100) y →
      ∃ r : ℝ, y = some r ∧ (768 / 1000 : ℝ) < r ∧ r < (769 / 1000 : ℝ)) := by
  refine ⟨?_, ?_, ?_, bvC_eq, epsC_eq, spsC_eq, p5pbvC_eq,
    by rw [abs_le]; constructor <;> norm_num, p5perC_eq, by norm_num, p5psrC_eq,
    by rw [abs_le]; constructor <;> norm_num, blendC_eq,
    by rw [abs_le]; constructor <;> norm_num, ?_,
    by rw [abs_le]; constructor <;> norm_num, blend_root_exists, ?_⟩
  · intro agg s hs
    have hs6 : (0 : ℚ) < s * 1000000 := by positivity
    have hs0 : s * 1000000 ≠ 0 := ne_of_gt hs6
    refine ⟨?_, ?_, ?_⟩ <;>
      simp [book_value_per_share, eps_current, sps_current, shares_outstanding,
        FVal.fmul, FVal.flt, FVal.fdiv, hs6, hs0]
  · intro agg
    refine ⟨?_, ?_, ?_⟩ <;>
      simp [book_value_per_share, eps_current, sps_current, shares_outstanding,
        FVal.fmul, FVal.flt]
  · intro base rate mult i hi
    have hr : (List.range 5)[i]? = some i := List.getElem?_range hi
    constructor
    · simp [compound5, hr]
    · simp [priceCol, compound5, hr]
  · rw [blendC_eq]
    norm_num [gain_loss, FVal.flt, FVal.fdiv, FVal.fsub, FVal.fmul]
  · intro y h
    cases h with
    | nonpos hl => norm_num [FVal.flt] at hl
    | ratio_nan hl h2 =>
      rw [blend_ratio] at h2
      exact absurd h2 (by simp)
    | ratio_neg q hl h2 h3 =>
      rw [blend_ratio] at h2
      obtain rfl := FVal.fin.inj h2
      norm_num at h3
    | root q x hl h2 h3 h4 h5 =>
      rw [blend_ratio] at h2
      obtain rfl := FVal.fin.inj h2
      obtain ⟨hb1, hb2⟩ := root_bounds h4 h5
      exact ⟨x - 1, rfl, by linarith, by linarith⟩

/-- Witness for C1 on the scenario's aggregates: 8e9 of equity over 10
million shares is 800 per share. -/
theorem projection_end_to_end_witness :
    book_value_per_share (FVal.fin 8000000000) (FVal.fin 10)
        = FVal.fin (8000000000 / (10 * 1000000)) ∧
    (compound5 (FVal.fin 800) (FVal.fin 12))[4]? =
      some ((FVal.fin 800).fmul
        (((FVal.fin 1).fadd ((FVal.fin 12).fdiv (FVal.fin 100))).fpow 5)) := by
  exact ⟨(projection_end_to_end_amended.1 8000000000 10 (by norm_num)).1,
    (projection_end_to_end_amended.2.2.1 (FVal.fin 800) (FVal.fin 12) (FVal.fin 1) 4
      (by norm_num)).1⟩

end FPP
